import Mathlib

/-!
# Verification of the campus-info-chatbot notice/alert pipeline

Shallow embedding of the notice-ingestion and alert-fanout core:
`modules/alerts.py`, `modules/scraper_ptu.py`, `modules/scraper_gndec.py`
and `scheduler.py`.  Strings are Lean `String`s, manipulated through their
character lists; Python's `str.lower`/`str.upper` (ASCII range, as used by
the code), `str.strip`, and the `in` substring test are modelled explicitly.
Database tables become in-memory lists; the external messaging channels
become a boolean send oracle passed as a parameter.
-/

namespace Campus

/-! ## Python string primitives -/

/-- Python whitespace, as stripped by `str.strip()`. -/
def isPyWS (c : Char) : Bool :=
  c == ' ' || c == '\t' || c == '\n' || c == '\r' || c == '\x0b' || c == '\x0c'

/-- `str.strip()` on a character list. -/
def trimL (cs : List Char) : List Char :=
  ((cs.dropWhile isPyWS).reverse.dropWhile isPyWS).reverse

/-- `str.lower()` (the code only relies on ASCII case folding). -/
def lowerL (cs : List Char) : List Char := cs.map Char.toLower

/-- `str.upper()` (ASCII). -/
def upperL (cs : List Char) : List Char := cs.map Char.toUpper

def pyLower (s : String) : List Char := lowerL s.toList
def pyUpper (s : String) : List Char := upperL s.toList
def pyStrip (s : String) : List Char := trimL s.toList

/-- `needle` is a leading segment of `hay` (helper for the substring test). -/
def isPrefL : List Char → List Char → Bool
  | [], _ => true
  | _ :: _, [] => false
  | a :: as, b :: bs => a == b && isPrefL as bs

/-- Python's `needle in hay` substring test. -/
def isSubL (nd : List Char) : List Char → Bool
  | [] => nd.isEmpty
  | c :: rest => isPrefL nd (c :: rest) || isSubL nd rest

theorem isPrefL_iff (nd hay : List Char) : isPrefL nd hay = true ↔ nd <+: hay := by
  induction nd generalizing hay with
  | nil => simp [isPrefL]
  | cons a as ih =>
    cases hay with
    | nil => simp [isPrefL]
    | cons b bs =>
      simp only [isPrefL, Bool.and_eq_true, beq_iff_eq, ih, List.cons_prefix_cons]

theorem isSubL_iff (nd hay : List Char) : isSubL nd hay = true ↔ nd <:+: hay := by
  induction hay with
  | nil => simp [isSubL, List.isEmpty_iff]
  | cons c rest ih =>
    simp only [isSubL, Bool.or_eq_true, isPrefL_iff, ih, List.infix_cons_iff]

/-! ## Data model

The `alerts` table row (`id, user_identifier, channel, keyword, source,
frequency, active`); `keyword`, `source` and `frequency` are nullable. -/

structure Alert where
  id : Nat
  user_identifier : String
  channel : String
  keyword : Option String
  source : Option String
  frequency : Option String
  active : Bool
deriving Repr, DecidableEq

/-- The `notices` table row (`id, title, link, date, source`); `date` is a
calendar day, modelled as an integer day number. -/
structure Notice where
  id : Nat
  title : String
  link : String
  date : Int
  source : String
deriving Repr, DecidableEq

/-! ## Alert matcher -/

/-- The source/keyword filter of `notify_if_matches` (alerts.py 129-138):
`alert_source = (a.get("source") or "").upper()` must be empty or equal the
uppercased notice source, and `kw = (a.get("keyword") or "").strip()` must be
empty or have its lowercasing be a substring of the lowercased title. -/
def matchesImmediate (a : Alert) (n : Notice) : Bool :=
  (let alert_source := upperL ((a.source.getD "").toList)
   alert_source.isEmpty || alert_source == pyUpper n.source)
  &&
  (let kw := trimL ((a.keyword.getD "").toList)
   kw.isEmpty || isSubL (lowerL kw) (pyLower n.title))

/-- The source/keyword filter of `daily_digest` (scheduler.py 97-109):
`kw = (a.get("keyword") or "").strip().lower()`,
`alert_source = (a.get("source") or "").upper()`, then the same two skips. -/
def matchesDaily (a : Alert) (n : Notice) : Bool :=
  (let alert_source := upperL ((a.source.getD "").toList)
   alert_source.isEmpty || alert_source == pyUpper n.source)
  &&
  (let kw := lowerL (trimL ((a.keyword.getD "").toList))
   kw.isEmpty || isSubL kw (pyLower n.title))

/-- The matcher as the claim words it: the keyword is used as-is — absent or
empty matches anything, otherwise the raw keyword must be a case-insensitive
substring of the title (no trimming). -/
def specMatches (a : Alert) (n : Notice) : Bool :=
  (match a.source with
   | none => true
   | some s => s == "" || upperL s.toList == pyUpper n.source)
  &&
  (match a.keyword with
   | none => true
   | some k => k == "" || isSubL (lowerL k.toList) (pyLower n.title))

/-! ## Frequency routing -/

/-- alerts.py 141: `freq = (a.get("frequency") or "immediate")` — a missing or
empty frequency falls back to `"immediate"`. -/
def effectiveFrequency (freq : Option String) : String :=
  match freq with
  | none => "immediate"
  | some s => if s == "" then "immediate" else s

/-- alerts.py 141-144: the immediate notification path proceeds past the
frequency check only when the effective frequency is `"immediate"`. -/
def immediatePathHandles (a : Alert) : Bool :=
  effectiveFrequency a.frequency == "immediate"

/-- scheduler.py 82: `SELECT * FROM alerts WHERE frequency='daily' AND
active=1` — the daily digest job's alert selection. -/
def dailyPathSelects (a : Alert) : Bool :=
  a.frequency == some "daily" && a.active

/-! ## Sent-ledger -/

/-- `alerts_sent` rows, as (alert_id, notice_id) pairs. -/
abbrev Ledger := List (Nat × Nat)

/-- alerts.py 52-58: `SELECT id FROM alerts_sent WHERE alert_id=... AND
notice_id=...` is non-empty. -/
def alreadySent (led : Ledger) (aid nid : Nat) : Bool :=
  led.contains (aid, nid)

/-- alerts.py 60-68: `INSERT INTO alerts_sent ...`, duplicate-key errors
silently ignored (the table's uniqueness makes a duplicate insert a no-op). -/
def markSent (led : Ledger) (aid nid : Nat) : Ledger :=
  if led.contains (aid, nid) then led else led ++ [(aid, nid)]

/-! ## Delivery paths

The channel sends (`send_whatsapp` / `send_telegram`, alerts.py 71-100) are
external; they are modelled by a boolean oracle `send channel recipient text`
that reports whether the send succeeded. -/

/-- alerts.py 120: the immediate-path message text. -/
def noticeMessage (n : Notice) : String :=
  "📢 New [" ++ String.mk (pyUpper n.source) ++ "] Notice:\n"
    ++ n.title ++ "\n" ++ n.link ++ "\n🗓 " ++ toString n.date

structure DeliveryResult where
  ledger : Ledger
  sendCalls : Nat
  sent : Bool
deriving Repr, DecidableEq

/-- One iteration of the alert loop of `notify_if_matches`
(alerts.py 125-164) for a single alert `a` against the freshly inserted
notice `n`: source filter, keyword filter, frequency check, sent-ledger
check, channel dispatch, and the ledger write guarded by `if sent`. -/
def notifyAlert (send : String → String → String → Bool) (led : Ledger)
    (a : Alert) (n : Notice) : DeliveryResult :=
  if ¬ matchesImmediate a n then ⟨led, 0, false⟩
  else if ¬ immediatePathHandles a then ⟨led, 0, false⟩
  else if alreadySent led a.id n.id then ⟨led, 0, false⟩
  else
    let msg := noticeMessage n
    let sent :=
      if a.channel == "whatsapp" then send "whatsapp" a.user_identifier msg
      else if a.channel == "telegram" then send "telegram" a.user_identifier msg
      else false
    let calls := if a.channel == "whatsapp" || a.channel == "telegram" then 1 else 0
    ⟨if sent then markSent led a.id n.id else led, calls, sent⟩

/-- scheduler.py 101-114: the notices from the lookback window that pass the
alert's source/keyword filters and are not already in the sent-ledger. -/
def digestMatched (led : Ledger) (a : Alert) (recent : List Notice) : List Notice :=
  recent.filter (fun n => matchesDaily a n && ! alreadySent led a.id n.id)

/-- scheduler.py 121-123: the aggregated digest text (one line block per
matched notice appended to the header). -/
def digestText (matched : List Notice) : String :=
  matched.foldl
    (fun t m => t ++ "- " ++ m.title ++ "\n" ++ m.link ++ "\n🗓 " ++ toString m.date ++ "\n\n")
    "📬 Daily Digest — matching notices:\n\n"

/-- One iteration of the alert loop of `daily_digest` (scheduler.py 92-138)
for a single daily alert `a`: compute the matched set, skip entirely when it
is empty, otherwise one channel dispatch and — on success — one
`mark_sent` per matched notice. -/
def digestAlert (send : String → String → String → Bool) (led : Ledger)
    (a : Alert) (recent : List Notice) : DeliveryResult :=
  let matched := digestMatched led a recent
  if matched.isEmpty then ⟨led, 0, false⟩
  else
    let text := digestText matched
    let sent :=
      if a.channel == "telegram" then send "telegram" a.user_identifier text
      else if a.channel == "whatsapp" then send "whatsapp" a.user_identifier text
      else false
    let calls := if a.channel == "telegram" || a.channel == "whatsapp" then 1 else 0
    ⟨if sent then matched.foldl (fun l m => markSent l a.id m.id) led else led, calls, sent⟩

/-! ## Notice store -/

/-- The `notices` table plus the auto-increment counter. -/
structure Store where
  notices : List Notice
  nextId : Nat
deriving Repr, DecidableEq

/-- `SELECT id FROM notices WHERE link=%s OR title=%s` is non-empty
(scraper_ptu.py 202, scraper_gndec.py 192). -/
def existsLinkOrTitle (st : Store) (link title : String) : Bool :=
  st.notices.any (fun n => n.link == link || n.title == title)

/-- `SELECT id FROM notices WHERE link=%s` — the re-select both scrapers use
to learn the id assigned by the insert (scraper_ptu.py 215,
scraper_gndec.py 225). -/
def selectIdByLink (st : Store) (link : String) : Option Nat :=
  (st.notices.find? (fun n => n.link == link)).map (fun n => n.id)

/-- `INSERT INTO notices ...` followed by the re-select-by-link; the second
component is the `notice_row` handed to `notify_if_matches` (`none` means
the re-select found nothing, so no notification was triggered). -/
def insertNotice (st : Store) (title link : String) (d : Int) (src : String) :
    Store × Option Notice :=
  let st' : Store := ⟨st.notices ++ [⟨st.nextId, title, link, d, src⟩], st.nextId + 1⟩
  (st',
   match selectIdByLink st' link with
   | some nid => some ⟨nid, title, link, d, src⟩
   | none => none)

/-- The shared dedup-check + insert + notify step of both scrapers
(scraper_ptu.py 200-224, scraper_gndec.py 191-233 with the date already
resolved): a link-or-title match makes the call a no-op that triggers no
notification. -/
def saveNoticeStep (st : Store) (title link : String) (d : Int) (src : String) :
    Store × Option Notice :=
  if existsLinkOrTitle st link title then (st, none)
  else insertNotice st title link d src

/-! ## Scrapers -/

def ptuBase : String := "https://ptu.ac.in"

/-- `urllib.parse.urljoin`, modelled abstractly: an absolute link is kept,
anything else is resolved against the base page.  No claim depends on the
exact resolution, only on the resulting link being used consistently. -/
def urljoinModel (base href : String) : String :=
  if isPrefL "http".toList href.toList then href else base ++ href

inductive PtuOutcome where
  | noTitle | noLink | noDate | tooOld | duplicate | inserted
deriving Repr, DecidableEq

/-- PTU `MAX_AGE_DAYS` (scraper_ptu.py 21). -/
def maxAgeDays : Int := 30

/-- One iteration of the row loop of PTU `run()` (scraper_ptu.py 173-226),
after `best_title_and_link_from_row` produced `title`, `link` and `dateVal`
(`none` models Python `None`; the empty string models a falsy string):
skip on missing/blank title, missing link, unparsed date, or a date older
than `limit_date = today - 30 days`; then the dedup check, insert and
notify.  The returned store is the table after the row is processed. -/
def ptuProcessRow (st : Store) (today : Int)
    (title link : Option String) (dateVal : Option Int) : PtuOutcome × Store :=
  let limit := today - maxAgeDays
  match title with
  | none => (.noTitle, st)
  | some t =>
    if t == "" || (trimL t.toList).isEmpty then (.noTitle, st)
    else
      match link with
      | none => (.noLink, st)
      | some l =>
        if l == "" then (.noLink, st)
        else
          let full := urljoinModel ptuBase l
          match dateVal with
          | none => (.noDate, st)
          | some dv =>
            if dv < limit then (.tooOld, st)
            else if existsLinkOrTitle st full t then (.duplicate, st)
            else (.inserted, (insertNotice st t full dv "PTU").1)

/-- One iteration of the item loop of GNDEC `save_notices`
(scraper_gndec.py 187-238).  `dateHint` is the date found next to the link
by the extractor; `pageDate` is the result of the secondary per-item page
fetch `get_notice_date_from_page` (an external fetch, modelled as an
oracle value): when the hint is missing the page fetch is attempted, and
when that also fails `datetime.now().date()` — `today` — is substituted. -/
def gndecSaveItem (pageDate : Option Int) (today : Int) (st : Store)
    (title href : String) (dateHint : Option Int) : Store × Option Notice :=
  if existsLinkOrTitle st href title then (st, none)
  else
    let d : Int :=
      match dateHint with
      | some dv => dv
      | none =>
        match pageDate with
        | some pd => pd
        | none => today
    insertNotice st title href d "GNDEC"

/-! ## Daily digest notice query -/

/-- scheduler.py 50-65: `SELECT id, title, link, date, source FROM notices
WHERE date >= %s` (the `ORDER BY date DESC` only affects ordering, which no
claim depends on; membership is the modelled contract). -/
def fetch_recent_notices (since : Int) (stored : List Notice) : List Notice :=
  stored.filter (fun n => since ≤ n.date)

/-- scheduler.py 77-78: `since = (now - timedelta(days=1)).date()` — the
calendar day before the run day, whatever the run's time of day. -/
def digestSince (runDay : Int) : Int := runDay - 1

/-- The claim's reading of the window: the notice's date (taken at its start
of day, in hours) lies within the 24 hours preceding the run instant
`runHour` (hours since the epoch). -/
def withinPrior24h (runHour : Int) (noticeDay : Int) : Prop :=
  runHour - 24 ≤ noticeDay * 24 ∧ noticeDay * 24 ≤ runHour

instance (runHour noticeDay : Int) : Decidable (withinPrior24h runHour noticeDay) := by
  unfold withinPrior24h; infer_instance

/-! ## GNDEC extraction

`extract_notices_from_soup` (scraper_gndec.py 120-185) walks a parsed HTML
tree through BeautifulSoup.  The DOM is external: an anchor element is
modelled by its visible text, its `href` attribute, and the result of the
per-anchor parent scan for a nearby date (lines 153-165), and the function
receives the per-selector `soup.select(sel)` result lists plus the
`soup.find_all("a", href=True)` list as data. -/

structure Anchor where
  text : String
  href : String
  nearDate : Option Int
deriving Repr, DecidableEq

/-- An extracted candidate: (title, resolved link, optional nearby date). -/
abbrev Item := String × String × Option Int

/-- scraper_gndec.py 148-149 / 179: the excluded non-navigable targets. -/
def nonNavigable (href : String) : Bool :=
  isPrefL "javascript:".toList (lowerL href.toList)
    || isPrefL "mailto:".toList (lowerL href.toList)

/-- The body of one selector pass (scraper_gndec.py 143-167): keep anchors
with a non-empty title and href that are navigable, resolving the href
against the page URL. -/
def processSelector (base : String) (found : List Anchor) : List Item :=
  found.filterMap (fun a =>
    if a.text == "" || a.href == "" then none
    else if nonNavigable a.href then none
    else some (a.text, urljoinModel base a.href, a.nearDate))

/-- The fallback pass (scraper_gndec.py 172-185): scan every anchor, keep
those with non-empty text whose text length exceeds 30 or whose href
mentions "pdf", "notice" or "circular", excluding non-navigable targets. -/
def fallbackScan (base : String) (anchors : List Anchor) : List Item :=
  anchors.filterMap (fun a =>
    if a.text == "" then none
    else if decide (30 < a.text.length)
        || isSubL "pdf".toList (lowerL a.href.toList)
        || isSubL "notice".toList (lowerL a.href.toList)
        || isSubL "circular".toList (lowerL a.href.toList) then
      if nonNavigable a.href then none
      else some (a.text, urljoinModel base a.href, none)
    else none)

/-- `extract_notices_from_soup` (scraper_gndec.py 120-185): the selectors
are tried in order; the first whose pass yields a non-empty result returns
it (in the code a selector with no usable anchors leaves `notices` empty,
so the loop falls through to the next selector); when every selector yields
nothing usable, the fallback pass over all anchors is the result. -/
def extract_notices_from_soup (base : String)
    (selResults : List (List Anchor)) (allAnchors : List Anchor) : List Item :=
  match selResults with
  | [] => fallbackScan base allAnchors
  | found :: rest =>
    let notices := processSelector base found
    if notices.isEmpty then extract_notices_from_soup base rest allAnchors
    else notices

/-- The fallback acceptance condition exactly as the claim states it: text
length over 30 or a pdf/notice/circular href, non-navigable excluded — with
no requirement that the visible text be non-empty. -/
def claimFallbackAccepts (a : Anchor) : Bool :=
  (decide (30 < a.text.length)
      || isSubL "pdf".toList (lowerL a.href.toList)
      || isSubL "notice".toList (lowerL a.href.toList)
      || isSubL "circular".toList (lowerL a.href.toList))
    && ! nonNavigable a.href

/-! ## Date resolution

`try_parse_date` (scraper_ptu.py 44-80) and `try_extract_date_from_text`
(scraper_gndec.py 40-61) combine `re.search` over fixed date shapes with
`datetime.strptime` attempts.  The regular expressions are embedded as
shape-specific scanners with the same leftmost-match, greedy-with-backtrack
semantics (`\d{1,2}` tries two digits before one); `strptime` is embedded
per format string, with full-input consumption and calendar validation, and
with runs of whitespace in a format matching one-or-more whitespace
characters as CPython's `_strptime` does. -/

structure PDate where
  year : Nat
  month : Nat
  day : Nat
deriving Repr, DecidableEq

def isLeapYear (y : Nat) : Bool := y % 4 == 0 && (y % 100 != 0 || y % 400 == 0)

def daysInMonth (y m : Nat) : Nat :=
  if m == 2 then (if isLeapYear y then 29 else 28)
  else if m == 4 || m == 6 || m == 9 || m == 11 then 30
  else 31

/-- `datetime.date` construction: raises (here: `none`) outside the valid
calendar range. -/
def mkValidDate (y m d : Nat) : Option PDate :=
  if 1 ≤ y && y ≤ 9999 && 1 ≤ m && m ≤ 12 && 1 ≤ d && d ≤ daysInMonth y m
  then some ⟨y, m, d⟩ else none

def digitVal (c : Char) : Nat := c.toNat - '0'.toNat

def natOfDigits (ds : List Char) : Nat := ds.foldl (fun n c => 10 * n + digitVal c) 0

/-- Regex `\d{1,2}`: the possible (digits, rest) splits in greedy order. -/
def digits12 : List Char → List (List Char × List Char)
  | a :: b :: rest =>
    if a.isDigit then
      if b.isDigit then [([a, b], rest), ([a], b :: rest)]
      else [([a], b :: rest)]
    else []
  | [a] => if a.isDigit then [([a], [])] else []
  | [] => []

/-- Regex `\d{4}`: exactly four digits. -/
def digits4 : List Char → Option (List Char × List Char)
  | a :: b :: c :: d :: rest =>
    if a.isDigit && b.isDigit && c.isDigit && d.isDigit then some ([a, b, c, d], rest)
    else none
  | _ => none

/-- Regex word characters (`\w`, ASCII). -/
def isWordChar (c : Char) : Bool := c.isAlphanum || c == '_'

def isLetter (c : Char) : Bool := c.isAlpha

def isSepChar (c : Char) : Bool := c == '/' || c == '-'

/-- A `\b` placed after a digit: end of input or a non-word character. -/
def boundaryAfter : List Char → Bool
  | [] => true
  | c :: _ => ! isWordChar c

/-- `re.search` for a pattern that can only start where `\b` holds before a
word character: try the parser at each position whose preceding character
is not a word character. -/
def searchWB {α} (parse : List Char → Option α) : Bool → List Char → Option α
  | _, [] => none
  | prevWord, c :: rest =>
    match (if prevWord then none else parse (c :: rest)) with
    | some x => some x
    | none => searchWB parse (isWordChar c) rest

/-- `re.search` for an unanchored pattern: try the parser at each position. -/
def searchNB {α} (parse : List Char → Option α) : List Char → Option α
  | [] => none
  | c :: rest =>
    match parse (c :: rest) with
    | some x => some x
    | none => searchNB parse rest

/-- PTU shape 0 — `\b`, one or two digits, a slash-or-dash separator, one or
two digits, a separator, four digits, `\b` — at one position, returning the
numeric groups. -/
def ptuShape0At (cs : List Char) : Option (Nat × Nat × Nat) :=
  (digits12 cs).findSome? (fun p =>
    match p.2 with
    | s1 :: r2 =>
      if isSepChar s1 then
        (digits12 r2).findSome? (fun q =>
          match q.2 with
          | s2 :: r4 =>
            if isSepChar s2 then
              match digits4 r4 with
              | some (y, r5) =>
                if boundaryAfter r5 then some (natOfDigits p.1, natOfDigits q.1, natOfDigits y)
                else none
              | none => none
            else none
          | [] => none)
      else none
    | [] => none)

/-- PTU shape `\b(\d{1,2})\s+([A-Za-z]+)\s+(\d{4})\b` at one position:
`[A-Za-z]+` is greedy and followed by `\s+`, so it must consume the whole
letter run. -/
def ptuShape1At (cs : List Char) : Option (Nat × List Char × Nat) :=
  (digits12 cs).findSome? (fun p =>
    let r1 := p.2
    if (r1.takeWhile isPyWS).isEmpty then none
    else
      let r2 := r1.dropWhile isPyWS
      let letters := r2.takeWhile isLetter
      if letters.isEmpty then none
      else
        let r3 := r2.dropWhile isLetter
        if (r3.takeWhile isPyWS).isEmpty then none
        else
          match digits4 (r3.dropWhile isPyWS) with
          | some (y, r5) =>
            if boundaryAfter r5 then some (natOfDigits p.1, letters, natOfDigits y)
            else none
          | none => none)

/-- PTU shape 2 (ISO) — `\b`, four digits, a slash-or-dash separator, one or
two digits, a separator, one or two digits, `\b` — at one position, keeping
the separator characters (`strptime("%Y-%m-%d")` requires dashes). -/
def ptuShape2At (cs : List Char) : Option (Nat × Char × Nat × Char × Nat) :=
  match digits4 cs with
  | some (y, r1) =>
    (match r1 with
     | s1 :: r2 =>
       if isSepChar s1 then
         (digits12 r2).findSome? (fun p =>
           match p.2 with
           | s2 :: r4 =>
             if isSepChar s2 then
               (digits12 r4).findSome? (fun q =>
                 if boundaryAfter q.2 then
                   some (natOfDigits y, s1, natOfDigits p.1, s2, natOfDigits q.1)
                 else none)
             else none
           | [] => none)
       else none
     | [] => none)
  | none => none

/-- `%B` month names (strptime matches them case-insensitively). -/
def monthFull : List (List Char × Nat) :=
  [("january".toList, 1), ("february".toList, 2), ("march".toList, 3),
   ("april".toList, 4), ("may".toList, 5), ("june".toList, 6),
   ("july".toList, 7), ("august".toList, 8), ("september".toList, 9),
   ("october".toList, 10), ("november".toList, 11), ("december".toList, 12)]

/-- `%b` abbreviated month names. -/
def monthAbbr : List (List Char × Nat) :=
  [("jan".toList, 1), ("feb".toList, 2), ("mar".toList, 3), ("apr".toList, 4),
   ("may".toList, 5), ("jun".toList, 6), ("jul".toList, 7), ("aug".toList, 8),
   ("sep".toList, 9), ("oct".toList, 10), ("nov".toList, 11), ("dec".toList, 12)]

/-- Look up a month-name segment (a maximal letter run: the name is always
followed by non-letter input in the formats used, so it must match the run
exactly), case-insensitively. -/
def monthLookup (table : List (List Char × Nat)) (letters : List Char) : Option Nat :=
  (table.find? (fun e => e.1 == lowerL letters)).map (fun e => e.2)

/-! ### strptime, per format string (full-input match) -/

/-- `strptime(s, "%d<sep>%m<sep>%Y")` with a literal separator character. -/
def parseFull_dmY (sep : Char) (cs : List Char) : Option PDate :=
  (digits12 cs).findSome? (fun p =>
    match p.2 with
    | c :: r2 =>
      if c == sep then
        (digits12 r2).findSome? (fun q =>
          match q.2 with
          | c2 :: r4 =>
            if c2 == sep then
              match digits4 r4 with
              | some (y, r5) =>
                if r5.isEmpty then mkValidDate (natOfDigits y) (natOfDigits q.1) (natOfDigits p.1)
                else none
              | none => none
            else none
          | [] => none)
      else none
    | [] => none)

/-- `strptime(s, "%Y-%m-%d")`. -/
def parseFull_Ymd (cs : List Char) : Option PDate :=
  match digits4 cs with
  | some (y, r1) =>
    (match r1 with
     | c :: r2 =>
       if c == '-' then
         (digits12 r2).findSome? (fun p =>
           match p.2 with
           | c2 :: r4 =>
             if c2 == '-' then
               (digits12 r4).findSome? (fun q =>
                 if q.2.isEmpty then
                   mkValidDate (natOfDigits y) (natOfDigits p.1) (natOfDigits q.1)
                 else none)
             else none
           | [] => none)
       else none
     | [] => none)
  | none => none

/-- `strptime(s, "%d %B %Y")` / `strptime(s, "%d %b %Y")` depending on the
month-name table: day, whitespace run, month name, whitespace run, year. -/
def parseFull_dNameY (table : List (List Char × Nat)) (cs : List Char) : Option PDate :=
  (digits12 cs).findSome? (fun p =>
    let r1 := p.2
    if (r1.takeWhile isPyWS).isEmpty then none
    else
      let r2 := r1.dropWhile isPyWS
      let letters := r2.takeWhile isLetter
      if letters.isEmpty then none
      else
        match monthLookup table letters with
        | some m =>
          let r3 := r2.dropWhile isLetter
          if (r3.takeWhile isPyWS).isEmpty then none
          else
            match digits4 (r3.dropWhile isPyWS) with
            | some (y, r5) =>
              if r5.isEmpty then mkValidDate (natOfDigits y) m (natOfDigits p.1) else none
            | none => none
        | none => none)

/-- `strptime(s, "%B %d, %Y")` / `strptime(s, "%b %d, %Y")`: month name,
whitespace run, day, a literal comma, whitespace run, year. -/
def parseFull_NamedY (table : List (List Char × Nat)) (cs : List Char) : Option PDate :=
  let letters := cs.takeWhile isLetter
  if letters.isEmpty then none
  else
    match monthLookup table letters with
    | some m =>
      let r1 := cs.dropWhile isLetter
      if (r1.takeWhile isPyWS).isEmpty then none
      else
        let r2 := r1.dropWhile isPyWS
        (digits12 r2).findSome? (fun p =>
          match p.2 with
          | ',' :: r3 =>
            if (r3.takeWhile isPyWS).isEmpty then none
            else
              match digits4 (r3.dropWhile isPyWS) with
              | some (y, r5) =>
                if r5.isEmpty then mkValidDate (natOfDigits y) m (natOfDigits p.1) else none
              | none => none
          | _ => none)
    | none => none

/-! ### PTU `try_parse_date` (scraper_ptu.py 44-80) -/

/-- scraper_ptu.py 44-80: search shape 0 and parse its zero-padded groups as
`"%d-%m-%Y"`; else search shape 1 and parse its match as `"%d %B %Y"` then
`"%d %b %Y"`; else search shape 2 and parse its match as `"%Y-%m-%d"`; else
try the whole (stripped) text against the five fallback formats. -/
def try_parse_date (text : String) : Option PDate :=
  if text == "" then none
  else
    let t := trimL text.toList
    let b1 :=
      match searchWB ptuShape0At false t with
      | some (d, m, y) => mkValidDate y m d
      | none => none
    match b1 with
    | some dt => some dt
    | none =>
      let b2 :=
        match searchWB ptuShape1At false t with
        | some (d, letters, y) =>
          (match (match monthLookup monthFull letters with
                  | some m => mkValidDate y m d
                  | none => none) with
           | some dt => some dt
           | none =>
             match monthLookup monthAbbr letters with
             | some m => mkValidDate y m d
             | none => none)
        | none => none
      match b2 with
      | some dt => some dt
      | none =>
        let b3 :=
          match searchWB ptuShape2At false t with
          | some (y, s1, m, s2, d) =>
            if s1 == '-' && s2 == '-' then mkValidDate y m d else none
          | none => none
        match b3 with
        | some dt => some dt
        | none =>
          [parseFull_dmY '-', parseFull_dmY '/', parseFull_dNameY monthAbbr,
           parseFull_dNameY monthFull, parseFull_Ymd].findSome? (fun f => f t)

/-! ### GNDEC `try_extract_date_from_text` (scraper_gndec.py 40-61)

Each pattern scanner returns the captured substring (`m.group(1)`), which is
then run through the fixed format list. -/

/-- GNDEC pattern `(\d{1,2}\s+[A-Za-z]{3,9}\s+\d{4})`: the letter block is
greedy and followed by `\s+`, so it must be the whole letter run, of length
3 to 9. -/
def gndecPat0 (cs : List Char) : Option (List Char) :=
  (digits12 cs).findSome? (fun p =>
    let r1 := p.2
    let ws1 := r1.takeWhile isPyWS
    if ws1.isEmpty then none
    else
      let r2 := r1.dropWhile isPyWS
      let letters := r2.takeWhile isLetter
      if 3 ≤ letters.length && letters.length ≤ 9 then
        let r3 := r2.dropWhile isLetter
        let ws2 := r3.takeWhile isPyWS
        if ws2.isEmpty then none
        else
          match digits4 (r3.dropWhile isPyWS) with
          | some (y, _) => some (p.1 ++ ws1 ++ letters ++ ws2 ++ y)
          | none => none
      else none)

/-- GNDEC numeric pattern: one or two digits, a literal separator, one or
two digits, the separator, four digits (patterns 1 and 3). -/
def gndecPatDMY (sep : Char) (cs : List Char) : Option (List Char) :=
  (digits12 cs).findSome? (fun p =>
    match p.2 with
    | c :: r2 =>
      if c == sep then
        (digits12 r2).findSome? (fun q =>
          match q.2 with
          | c2 :: r4 =>
            if c2 == sep then
              match digits4 r4 with
              | some (y, _) => some (p.1 ++ [c] ++ q.1 ++ [c2] ++ y)
              | none => none
            else none
          | [] => none)
      else none
    | [] => none)

/-- GNDEC pattern `(\d{4}-\d{1,2}-\d{1,2})` (pattern 2). -/
def gndecPat2 (cs : List Char) : Option (List Char) :=
  match digits4 cs with
  | some (y, r1) =>
    (match r1 with
     | c :: r2 =>
       if c == '-' then
         (digits12 r2).findSome? (fun p =>
           match p.2 with
           | c2 :: r4 =>
             if c2 == '-' then
               (digits12 r4).findSome? (fun q => some (y ++ [c] ++ p.1 ++ [c2] ++ q.1))
             else none
           | [] => none)
       else none
     | [] => none)
  | none => none

/-- GNDEC pattern `([A-Za-z]{3,9}\s+\d{1,2},\s*\d{4})` (pattern 4). -/
def gndecPat4 (cs : List Char) : Option (List Char) :=
  let letters := cs.takeWhile isLetter
  if 3 ≤ letters.length && letters.length ≤ 9 then
    let r1 := cs.dropWhile isLetter
    let ws1 := r1.takeWhile isPyWS
    if ws1.isEmpty then none
    else
      let r2 := r1.dropWhile isPyWS
      (digits12 r2).findSome? (fun p =>
        match p.2 with
        | ',' :: r3 =>
          let ws2 := r3.takeWhile isPyWS
          (match digits4 (r3.dropWhile isPyWS) with
           | some (y, _) => some (letters ++ ws1 ++ p.1 ++ [','] ++ ws2 ++ y)
           | none => none)
        | _ => none)
  else none

/-- The GNDEC format list, in the order of scraper_gndec.py 56. -/
def gndecFormats : List (List Char → Option PDate) :=
  [parseFull_dNameY monthFull, parseFull_dmY '-', parseFull_Ymd, parseFull_dmY '/',
   parseFull_NamedY monthFull, parseFull_NamedY monthAbbr, parseFull_dNameY monthAbbr]

/-- scraper_gndec.py 40-61: try each pattern in order; on the first match of
a pattern, run the captured string through all formats; a pattern whose
match parses under no format falls through to the next pattern. -/
def try_extract_date_from_text (text : String) : Option PDate :=
  if text == "" then none
  else
    let cs := text.toList
    [gndecPat0, gndecPatDMY '-', gndecPat2, gndecPatDMY '/', gndecPat4].findSome?
      (fun pat =>
        match searchNB pat cs with
        | some s => gndecFormats.findSome? (fun f => f s)
        | none => none)

/-! ## Claim theorems -/

/-- C6: each of the literal inputs `"28/11/2025"`, `"28-11-2025"`,
`"2025-11-28"` and `"28 November 2025"`, given to the date-resolution
functions (PTU's `try_parse_date` and GNDEC's
`try_extract_date_from_text`), resolves to the same calendar date,
28 November 2025 — not to none or a different date. -/
theorem date_formats_resolve_equal :
    try_parse_date "28/11/2025" = some ⟨2025, 11, 28⟩
    ∧ try_parse_date "28-11-2025" = some ⟨2025, 11, 28⟩
    ∧ try_parse_date "2025-11-28" = some ⟨2025, 11, 28⟩
    ∧ try_parse_date "28 November 2025" = some ⟨2025, 11, 28⟩
    ∧ try_extract_date_from_text "28/11/2025" = some ⟨2025, 11, 28⟩
    ∧ try_extract_date_from_text "28-11-2025" = some ⟨2025, 11, 28⟩
    ∧ try_extract_date_from_text "2025-11-28" = some ⟨2025, 11, 28⟩
    ∧ try_extract_date_from_text "28 November 2025" = some ⟨2025, 11, 28⟩ := by
  refine ⟨?_, ?_, ?_, ?_, ?_, ?_, ?_, ?_⟩ <;> rfl

/-- C10: an active alert whose frequency is absent, null or empty is treated
as `"immediate"` by the immediate notification path; the daily digest
selects exactly the alerts whose frequency is the string `"daily"`; any
other frequency value is handled by neither path. -/
theorem frequency_routing (a : Alert) :
    ((a.frequency = none ∨ a.frequency = some "") → immediatePathHandles a = true)
    ∧ (dailyPathSelects a = true → a.frequency = some "daily")
    ∧ (∀ s, a.frequency = some s → s ≠ "" → s ≠ "immediate" → s ≠ "daily" →
        immediatePathHandles a = false ∧ dailyPathSelects a = false) := by
  refine ⟨?_, ?_, ?_⟩
  · rintro (h | h) <;> simp [immediatePathHandles, effectiveFrequency, h]
  · intro h
    simp only [dailyPathSelects, Bool.and_eq_true, beq_iff_eq] at h
    exact h.1
  · intro s hs h1 h2 h3
    refine ⟨?_, ?_⟩
    · simp [immediatePathHandles, effectiveFrequency, hs, h1, h2]
    · simp [dailyPathSelects, hs, h3]

/-- Witness for C10: an alert with no frequency value is handled by the
immediate path. -/
theorem frequency_routing_witness :
    immediatePathHandles ⟨1, "u", "telegram", none, none, none, true⟩ = true :=
  (frequency_routing _).1 (Or.inl rfl)

/-- C2, counterexample: a whitespace-only keyword is neither absent nor
empty and is not a substring of the title `"x"`, so the claim's predicate
rejects the pair — but the code strips the keyword first and accepts it
(both delivery paths).  The claim's "absent or empty" is therefore not the
code's condition. -/
theorem matcher_claim_counterexample :
    matchesImmediate ⟨1, "u", "telegram", some " ", none, none, true⟩
        ⟨1, "x", "l", 0, "PTU"⟩ = true
    ∧ matchesDaily ⟨1, "u", "telegram", some " ", none, none, true⟩
        ⟨1, "x", "l", 0, "PTU"⟩ = true
    ∧ specMatches ⟨1, "u", "telegram", some " ", none, none, true⟩
        ⟨1, "x", "l", 0, "PTU"⟩ = false := by
  exact ⟨rfl, rfl, rfl⟩

/-- C2 as amended: both the immediate path and the daily digest path apply
the same predicate, which accepts a pair iff (the alert's source is absent
or empty, or equals the notice's source case-insensitively) and (the
alert's keyword is absent or empty **after trimming surrounding
whitespace**, or its trimmed form is a case-insensitive substring of the
notice's title — literal substring containment, no tokenization); an alert
with absent source and keyword matches every notice. -/
theorem matcher_characterization (a : Alert) (n : Notice) :
    matchesDaily a n = matchesImmediate a n
    ∧ (matchesImmediate a n = true ↔
        (upperL (a.source.getD "").toList = [] ∨
          upperL (a.source.getD "").toList = pyUpper n.source)
        ∧ (trimL (a.keyword.getD "").toList = [] ∨
            lowerL (trimL (a.keyword.getD "").toList) <:+: pyLower n.title))
    ∧ (a.source = none → a.keyword = none → matchesImmediate a n = true) := by
  refine ⟨?_, ?_, ?_⟩
  · have hlow : ∀ l : List Char, (lowerL l).isEmpty = l.isEmpty := by
      intro l; cases l <;> rfl
    simp [matchesDaily, matchesImmediate, hlow]
  · simp only [matchesImmediate, Bool.and_eq_true, Bool.or_eq_true,
      List.isEmpty_iff, beq_iff_eq, isSubL_iff]
  · intro h1 h2
    rcases a with ⟨i, u, c, k, s, f, ac⟩
    dsimp only at h1 h2
    subst h1; subst h2
    rfl

/-- Witness for C2 (amended): the spec's truth-table pair — alert
`(source PTU, keyword exam)` against notice `(source PTU, title "Mid-term
Exam Schedule")` — matches. -/
theorem matcher_characterization_witness :
    matchesImmediate ⟨1, "u", "telegram", some "exam", some "PTU", none, true⟩
        ⟨1, "Mid-term Exam Schedule", "l", 0, "PTU"⟩ = true :=
  (matcher_characterization _ _).2.1.mpr
    ⟨Or.inr rfl, Or.inr ((isSubL_iff _ _).mp rfl)⟩

/-! ### Ledger helper lemmas -/

theorem mem_markSent_self (led : Ledger) (aid nid : Nat) :
    (aid, nid) ∈ markSent led aid nid := by
  unfold markSent
  split
  · next h => simpa using h
  · exact List.mem_append_right _ (List.mem_singleton.mpr rfl)

theorem mem_markSent_of_mem {led : Ledger} {p : Nat × Nat} (h : p ∈ led)
    (aid nid : Nat) : p ∈ markSent led aid nid := by
  unfold markSent
  split
  · exact h
  · exact List.mem_append_left _ h

theorem mem_foldl_markSent_of_mem {p : Nat × Nat} (ms : List Notice) (aid : Nat) :
    ∀ led : Ledger, p ∈ led → p ∈ ms.foldl (fun l m => markSent l aid m.id) led := by
  induction ms with
  | nil => intro led h; exact h
  | cons m rest ih =>
    intro led h
    exact ih _ (mem_markSent_of_mem h aid m.id)

theorem mem_foldl_markSent_covers {m : Notice} (ms : List Notice) (aid : Nat)
    (hm : m ∈ ms) :
    ∀ led : Ledger, (aid, m.id) ∈ ms.foldl (fun l m => markSent l aid m.id) led := by
  induction ms with
  | nil => cases hm
  | cons hd rest ih =>
    intro led
    rcases List.mem_cons.mp hm with h | h
    · subst h
      exact mem_foldl_markSent_of_mem rest aid _ (mem_markSent_self led aid m.id)
    · exact ih h _

/-- C3: in either delivery path a sent-ledger record is written only after
the channel send reports success: when the send fails or the channel is
unknown the ledger is unchanged (so the pair stays eligible), and a
successful outcome can only come from an actual send call on the alert's
channel that returned true. -/
theorem ledger_write_only_after_send (send : String → String → String → Bool)
    (led : Ledger) (a : Alert) (n : Notice) (recent : List Notice) :
    ((notifyAlert send led a n).sent = false → (notifyAlert send led a n).ledger = led)
    ∧ ((notifyAlert send led a n).sent = true →
        (a.channel = "whatsapp" ∨ a.channel = "telegram")
        ∧ send a.channel a.user_identifier (noticeMessage n) = true)
    ∧ ((digestAlert send led a recent).sent = false →
        (digestAlert send led a recent).ledger = led)
    ∧ ((digestAlert send led a recent).sent = true →
        (a.channel = "telegram" ∨ a.channel = "whatsapp")
        ∧ send a.channel a.user_identifier (digestText (digestMatched led a recent)) = true) := by
  refine ⟨?_, ?_, ?_, ?_⟩
  · unfold notifyAlert
    split_ifs <;> intro h <;> simp_all
  · unfold notifyAlert
    split_ifs <;> intro h <;> simp_all [beq_iff_eq]
  · intro h
    by_cases hm : digestMatched led a recent = []
    · simp [digestAlert, hm]
    · have hf : (digestMatched led a recent).isEmpty = false := by
        simp [List.isEmpty_iff, hm]
      simp only [digestAlert, hf, Bool.false_eq_true, if_false] at h ⊢
      rw [h]
      simp
  · intro h
    by_cases hm : digestMatched led a recent = []
    · simp [digestAlert, hm] at h
    · have hf : (digestMatched led a recent).isEmpty = false := by
        simp [List.isEmpty_iff, hm]
      simp only [digestAlert, hf, Bool.false_eq_true, if_false] at h
      by_cases ht : a.channel = "telegram"
      · rw [ht] at h ⊢
        simp only [beq_self_eq_true, if_true] at h
        exact ⟨Or.inl rfl, h⟩
      · by_cases hw : a.channel = "whatsapp"
        · rw [hw] at h ⊢
          simp at h
          exact ⟨Or.inr rfl, h⟩
        · have h1 : (a.channel == "telegram") = false := by simp [ht]
          have h2 : (a.channel == "whatsapp") = false := by simp [hw]
          simp only [h1, h2, Bool.false_eq_true, if_false] at h

/-- Witness for C3: with a channel oracle that always fails, neither path
writes to the ledger. -/
theorem ledger_write_only_after_send_witness :
    (notifyAlert (fun _ _ _ => false) []
        ⟨1, "u", "telegram", none, none, none, true⟩ ⟨2, "T", "L", 0, "PTU"⟩).ledger = []
    ∧ (digestAlert (fun _ _ _ => false) []
        ⟨1, "u", "telegram", none, none, some "daily", true⟩
        [⟨2, "T", "L", 0, "PTU"⟩]).ledger = [] :=
  ⟨(ledger_write_only_after_send (fun _ _ _ => false) []
      ⟨1, "u", "telegram", none, none, none, true⟩ ⟨2, "T", "L", 0, "PTU"⟩ []).1 rfl,
   (ledger_write_only_after_send (fun _ _ _ => false) []
      ⟨1, "u", "telegram", none, none, some "daily", true⟩ ⟨2, "T", "L", 0, "PTU"⟩
      [⟨2, "T", "L", 0, "PTU"⟩]).2.2.1 rfl⟩

/-- C4: on a daily digest run, a daily alert with an empty matched set gets
nothing (no send call, ledger untouched); a non-empty matched set produces
exactly one send call, and on success every matched notice is recorded in
the sent-ledger for that alert.  (Every alert-creation surface restricts
the channel to telegram or whatsapp, hence the channel hypothesis.) -/
theorem daily_digest_aggregation (send : String → String → String → Bool)
    (led : Ledger) (a : Alert) (recent : List Notice)
    (hch : a.channel = "telegram" ∨ a.channel = "whatsapp") :
    (digestMatched led a recent = [] →
      digestAlert send led a recent = ⟨led, 0, false⟩)
    ∧ (digestMatched led a recent ≠ [] →
      (digestAlert send led a recent).sendCalls = 1)
    ∧ ((digestAlert send led a recent).sent = true →
      ∀ m ∈ digestMatched led a recent,
        (a.id, m.id) ∈ (digestAlert send led a recent).ledger) := by
  refine ⟨?_, ?_, ?_⟩
  · intro h
    simp [digestAlert, h]
  · intro h
    have hf : (digestMatched led a recent).isEmpty = false := by
      simp [List.isEmpty_iff, h]
    simp only [digestAlert, hf, Bool.false_eq_true, if_false]
    rcases hch with hc | hc <;> rw [hc] <;> simp
  · intro h m hm
    by_cases hm0 : digestMatched led a recent = []
    · rw [hm0] at hm; cases hm
    · have hf : (digestMatched led a recent).isEmpty = false := by
        simp [List.isEmpty_iff, hm0]
      simp only [digestAlert, hf, Bool.false_eq_true, if_false] at h ⊢
      rw [if_pos h]
      exact mem_foldl_markSent_covers _ a.id hm led

/-- Witness for C4: two matching notices in the window produce one send
call and both ledger records. -/
theorem daily_digest_aggregation_witness :
    (digestAlert (fun _ _ _ => true) []
      ⟨7, "u", "telegram", none, none, some "daily", true⟩
      [⟨1, "A", "LA", 0, "PTU"⟩, ⟨2, "B", "LB", 0, "PTU"⟩]).sendCalls = 1
    ∧ (7, 1) ∈ (digestAlert (fun _ _ _ => true) []
      ⟨7, "u", "telegram", none, none, some "daily", true⟩
      [⟨1, "A", "LA", 0, "PTU"⟩, ⟨2, "B", "LB", 0, "PTU"⟩]).ledger
    ∧ (7, 2) ∈ (digestAlert (fun _ _ _ => true) []
      ⟨7, "u", "telegram", none, none, some "daily", true⟩
      [⟨1, "A", "LA", 0, "PTU"⟩, ⟨2, "B", "LB", 0, "PTU"⟩]).ledger :=
  ⟨(daily_digest_aggregation (fun _ _ _ => true) []
      ⟨7, "u", "telegram", none, none, some "daily", true⟩
      [⟨1, "A", "LA", 0, "PTU"⟩, ⟨2, "B", "LB", 0, "PTU"⟩] (Or.inl rfl)).2.1 (by decide),
   (daily_digest_aggregation (fun _ _ _ => true) []
      ⟨7, "u", "telegram", none, none, some "daily", true⟩
      [⟨1, "A", "LA", 0, "PTU"⟩, ⟨2, "B", "LB", 0, "PTU"⟩] (Or.inl rfl)).2.2 rfl
      ⟨1, "A", "LA", 0, "PTU"⟩ (by decide),
   (daily_digest_aggregation (fun _ _ _ => true) []
      ⟨7, "u", "telegram", none, none, some "daily", true⟩
      [⟨1, "A", "LA", 0, "PTU"⟩, ⟨2, "B", "LB", 0, "PTU"⟩] (Or.inl rfl)).2.2 rfl
      ⟨2, "B", "LB", 0, "PTU"⟩ (by decide)⟩

/-- C1: a (title, link) pair already present in the notice store — matched
by link or by title — makes a further insert attempt a no-op that triggers
no notification; hence inserting the same pair twice into a store that did
not contain it yields exactly one stored notice, and the second call
changes nothing and notifies nobody. -/
theorem notice_dedup_idempotent (st : Store) (title link : String)
    (d d' : Int) (src src' : String) :
    (existsLinkOrTitle st link title = true →
      saveNoticeStep st title link d src = (st, none))
    ∧ (existsLinkOrTitle st link title = false →
      (saveNoticeStep st title link d src).2 ≠ none
      ∧ ((saveNoticeStep st title link d src).1.notices.filter
          (fun n => n.title == title && n.link == link)).length = 1
      ∧ saveNoticeStep ((saveNoticeStep st title link d src).1) title link d' src'
          = ((saveNoticeStep st title link d src).1, none)) := by
  constructor
  · intro h
    unfold saveNoticeStep
    rw [if_pos h]
  · intro h
    have hall : ∀ n ∈ st.notices, ¬(n.link = link) ∧ ¬(n.title = title) := by
      intro n hn
      have := List.any_eq_false.mp h n hn
      simpa using this
    have hstep : saveNoticeStep st title link d src
        = insertNotice st title link d src := by
      unfold saveNoticeStep; rw [if_neg (by simp [h])]
    have hfind : st.notices.find? (fun n => n.link == link) = none := by
      apply List.find?_eq_none.mpr
      intro n hn
      simp [(hall n hn).1]
    have hins : insertNotice st title link d src
        = (⟨st.notices ++ [⟨st.nextId, title, link, d, src⟩], st.nextId + 1⟩,
           some ⟨st.nextId, title, link, d, src⟩) := by
      unfold insertNotice selectIdByLink
      simp [List.find?_append, hfind]
    refine ⟨?_, ?_, ?_⟩
    · rw [hstep, hins]; simp
    · rw [hstep, hins]
      have hnil : st.notices.filter (fun n => n.title == title && n.link == link) = [] := by
        apply List.filter_eq_nil_iff.mpr
        intro n hn
        simp [(hall n hn).2]
      simp [List.filter_append, hnil]
    · rw [hstep, hins]
      unfold saveNoticeStep
      rw [if_pos (by simp [existsLinkOrTitle, List.any_append])]

/-- Witness for C1: inserting ("T", "L") into the empty store leaves exactly
one matching row, and the repeated insert is a no-op with no notification. -/
theorem notice_dedup_idempotent_witness :
    ((saveNoticeStep ⟨[], 0⟩ "T" "L" 5 "PTU").1.notices.filter
        (fun n => n.title == "T" && n.link == "L")).length = 1
    ∧ saveNoticeStep ((saveNoticeStep ⟨[], 0⟩ "T" "L" 5 "PTU").1) "T" "L" 6 "GNDEC"
        = ((saveNoticeStep ⟨[], 0⟩ "T" "L" 5 "PTU").1, none) :=
  ⟨((notice_dedup_idempotent ⟨[], 0⟩ "T" "L" 5 6 "PTU" "GNDEC").2 rfl).2.1,
   ((notice_dedup_idempotent ⟨[], 0⟩ "T" "L" 5 6 "PTU" "GNDEC").2 rfl).2.2⟩

/-- C5: a PTU candidate dated strictly older than today minus 30 days is
discarded with no store access — the outcome and the unchanged store do not
depend on the store at all, duplicate or not — while a candidate dated
exactly today minus 30 days is retained and proceeds to the dedup check
and insert. -/
theorem ptu_age_filter_boundary (st : Store) (today dv : Int) (t l : String)
    (ht : t ≠ "" ∧ trimL t.toList ≠ []) (hl : l ≠ "") :
    (dv < today - maxAgeDays →
      ∀ st' : Store, ptuProcessRow st' today (some t) (some l) (some dv) = (.tooOld, st'))
    ∧ (dv = today - maxAgeDays →
      ptuProcessRow st today (some t) (some l) (some dv)
        = (if existsLinkOrTitle st (urljoinModel ptuBase l) t
           then (.duplicate, st)
           else (.inserted, (insertNotice st t (urljoinModel ptuBase l) dv "PTU").1))) := by
  have htb : (t == "" || (trimL t.toList).isEmpty) = false := by
    simp [ht.1, List.isEmpty_iff]
    exact ht.2
  have hlb : (l == "") = false := by simp [hl]
  constructor
  · intro hold st'
    simp only [ptuProcessRow, htb, hlb, Bool.false_eq_true, if_false]
    rw [if_pos hold]
  · intro heq
    simp only [ptuProcessRow, htb, hlb, Bool.false_eq_true, if_false]
    rw [if_neg (by rw [heq]; exact lt_irrefl _)]

/-- Witness for C5: with today = 100, a candidate dated 69 is discarded as
too old even when the store already holds that exact pair, and a candidate
dated exactly 70 proceeds to the insert. -/
theorem ptu_age_filter_boundary_witness :
    ptuProcessRow ⟨[⟨0, "T", urljoinModel ptuBase "L", 69, "PTU"⟩], 1⟩ 100
        (some "T") (some "L") (some 69)
      = (.tooOld, ⟨[⟨0, "T", urljoinModel ptuBase "L", 69, "PTU"⟩], 1⟩)
    ∧ ptuProcessRow ⟨[], 0⟩ 100 (some "T") (some "L") (some 70)
      = (if existsLinkOrTitle ⟨[], 0⟩ (urljoinModel ptuBase "L") "T"
         then (.duplicate, ⟨[], 0⟩)
         else (.inserted, (insertNotice ⟨[], 0⟩ "T" (urljoinModel ptuBase "L") 70 "PTU").1)) :=
  ⟨(ptu_age_filter_boundary ⟨[], 0⟩ 100 69 "T" "L" ⟨by decide, by decide⟩ (by decide)).1
      (by decide) _,
   (ptu_age_filter_boundary ⟨[], 0⟩ 100 70 "T" "L" ⟨by decide, by decide⟩ (by decide)).2
      (by decide)⟩

/-- C8: when date resolution fails, the age-filtered source (PTU) skips the
item entirely — never persisted, whatever the store holds — while GNDEC
first uses the secondary per-item page fetch when it succeeds, and
otherwise substitutes the current date and persists the item (notifying on
the insert). -/
theorem undated_candidate_asymmetry (st : Store) (today : Int)
    (t l href : String) (pd : Int)
    (ht : t ≠ "" ∧ trimL t.toList ≠ []) (hl : l ≠ "")
    (hnew : existsLinkOrTitle st href t = false) :
    (∀ st' : Store, ptuProcessRow st' today (some t) (some l) none = (.noDate, st'))
    ∧ (gndecSaveItem (some pd) today st t href none).1.notices
        = st.notices ++ [⟨st.nextId, t, href, pd, "GNDEC"⟩]
    ∧ (gndecSaveItem none today st t href none).1.notices
        = st.notices ++ [⟨st.nextId, t, href, today, "GNDEC"⟩]
    ∧ (gndecSaveItem none today st t href none).2 ≠ none := by
  have htb : (t == "" || (trimL t.toList).isEmpty) = false := by
    simp [ht.1, List.isEmpty_iff]
    exact ht.2
  have hlb : (l == "") = false := by simp [hl]
  have hfind : st.notices.find? (fun n => n.link == href) = none := by
    apply List.find?_eq_none.mpr
    intro n hn
    have h2 := List.any_eq_false.mp hnew n hn
    simp only [Bool.or_eq_true, beq_iff_eq, not_or] at h2
    simp [h2.1]
  have hne : ¬ existsLinkOrTitle st href t = true := by simp [hnew]
  refine ⟨?_, ?_, ?_, ?_⟩
  · intro st'
    simp only [ptuProcessRow, htb, hlb, Bool.false_eq_true, if_false]
  · unfold gndecSaveItem
    rw [if_neg hne]
    rfl
  · unfold gndecSaveItem
    rw [if_neg hne]
    rfl
  · unfold gndecSaveItem
    rw [if_neg hne]
    unfold insertNotice selectIdByLink
    simp [List.find?_append, hfind]

/-- Witness for C8: an undated PTU row is skipped; the same undated
candidate on GNDEC is stored with the current date (today = 200). -/
theorem undated_candidate_asymmetry_witness :
    ptuProcessRow ⟨[], 0⟩ 200 (some "T") (some "L") none = (.noDate, ⟨[], 0⟩)
    ∧ (gndecSaveItem none 200 ⟨[], 0⟩ "T" "H" none).1.notices
        = [⟨0, "T", "H", 200, "GNDEC"⟩] :=
  ⟨(undated_candidate_asymmetry ⟨[], 0⟩ 200 "T" "L" "H" 0
      ⟨by decide, by decide⟩ (by decide) rfl).1 ⟨[], 0⟩,
   (undated_candidate_asymmetry ⟨[], 0⟩ 200 "T" "L" "H" 0
      ⟨by decide, by decide⟩ (by decide) rfl).2.2.1⟩

/-- C7, counterexample: the recent-notice query is `date >= run day - 1`
with no upper bound, so a notice dated five days in the future (day 105,
run day 100) is a digest candidate even though its date does not fall
within the 24 hours preceding the run instant (hour 12 of day 100). -/
theorem recent_window_counterexample :
    fetch_recent_notices (digestSince 100) [⟨1, "T", "L", 105, "PTU"⟩]
      = [⟨1, "T", "L", 105, "PTU"⟩]
    ∧ ¬ withinPrior24h (100 * 24 + 12) 105 := by
  exact ⟨rfl, by decide⟩

/-- C7 as amended: a stored notice is a daily-digest candidate iff its date
is on or after the calendar day preceding the run day — the whole of
yesterday, today, and any future-dated notice; not a sharp 24-hour
window. -/
theorem recent_window_characterization (runDay : Int) (stored : List Notice)
    (n : Notice) :
    n ∈ fetch_recent_notices (digestSince runDay) stored
      ↔ n ∈ stored ∧ runDay - 1 ≤ n.date := by
  simp [fetch_recent_notices, digestSince, List.mem_filter]

/-- Witness for C7 (amended): a notice dated on the run day is a
candidate. -/
theorem recent_window_characterization_witness :
    (⟨1, "T", "L", 100, "PTU"⟩ : Notice)
      ∈ fetch_recent_notices (digestSince 100) [⟨1, "T", "L", 100, "PTU"⟩] :=
  (recent_window_characterization 100 _ _).mpr ⟨by decide, by decide⟩

/-- C9, counterexample: the claim's fallback predicate accepts an anchor
with empty visible text and a "pdf" target, but the code's fallback pass
skips any anchor with empty text, so the extraction (all selectors empty)
returns nothing for it. -/
theorem extraction_fallback_counterexample :
    extract_notices_from_soup "b" (List.replicate 10 []) [⟨"", "x.pdf", none⟩] = []
    ∧ claimFallbackAccepts ⟨"", "x.pdf", none⟩ = true := by
  exact ⟨rfl, rfl⟩

/-- C9 as amended: the structural selectors are tried in priority order and
the first yielding usable anchors determines the entire result (later
selectors and the fallback are not consulted); the fallback pass runs only
when no selector yields usable anchors, and it accepts an anchor iff its
visible text is **non-empty** and the claim's condition holds (text longer
than 30 characters, or an href mentioning "pdf", "notice" or "circular"),
with non-navigable targets excluded in all passes. -/
theorem extraction_first_match_and_fallback (base : String)
    (selResults : List (List Anchor)) (allAnchors : List Anchor) :
    (∀ found rest, selResults = found :: rest → processSelector base found ≠ [] →
      extract_notices_from_soup base selResults allAnchors = processSelector base found)
    ∧ ((∀ found ∈ selResults, processSelector base found = []) →
      extract_notices_from_soup base selResults allAnchors = fallbackScan base allAnchors)
    ∧ (∀ x, x ∈ fallbackScan base allAnchors ↔
      ∃ a ∈ allAnchors, (a.text ≠ "" ∧ claimFallbackAccepts a = true)
        ∧ x = (a.text, urljoinModel base a.href, none)) := by
  refine ⟨?_, ?_, ?_⟩
  · intro found rest hsel hne
    subst hsel
    have hf : (processSelector base found).isEmpty = false := by
      simp [List.isEmpty_iff, hne]
    simp only [extract_notices_from_soup, hf, Bool.false_eq_true, if_false]
  · induction selResults with
    | nil => intro _; rfl
    | cons found rest ih =>
      intro h
      have hhd : processSelector base found = [] := h found (List.mem_cons_self _ _)
      simp only [extract_notices_from_soup, hhd, List.isEmpty_nil, if_true]
      exact ih (fun l hl => h l (List.mem_cons_of_mem _ hl))
  · intro x
    simp only [fallbackScan, List.mem_filterMap]
    constructor
    · rintro ⟨a, ha, hfa⟩
      refine ⟨a, ha, ?_⟩
      split_ifs at hfa with h1 h2 h3
      injection hfa with hx
      cases hx
      refine ⟨⟨by simpa using h1, ?_⟩, rfl⟩
      simp only [claimFallbackAccepts, h2, Bool.true_and]
      simpa using h3
    · rintro ⟨a, ha, ⟨htext, hacc⟩, hx⟩
      refine ⟨a, ha, ?_⟩
      simp only [claimFallbackAccepts, Bool.and_eq_true, Bool.not_eq_true'] at hacc
      have h1 : (a.text == "") = false := by simp [htext]
      rw [h1]
      simp only [Bool.false_eq_true, if_false, hacc.1, if_true, hacc.2, hx]

/-- Witness for C9 (amended): a single usable anchor found by the first
selector is the entire extraction result. -/
theorem extraction_first_match_witness :
    extract_notices_from_soup "b" [[⟨"T", "h", none⟩]] []
      = processSelector "b" [⟨"T", "h", none⟩] :=
  (extraction_first_match_and_fallback "b" [[⟨"T", "h", none⟩]] []).1
    [⟨"T", "h", none⟩] [] rfl (by decide)

end Campus
